import Mathlib

/-!
Verification of the Allure report-generation CLI wrapper
(`generate_allure_report.py`).

The script shells out to the external `allure` tool (and to `npm` for
installation).  We model it with a shallow embedding:

* `FS` is the part of the filesystem the script reads: whether the
  results directory `allure-results` exists, the names of the files it
  contains, and whether the output directory `allure-report` exists.
* `ProcEnv` is the behaviour of the outside world: for every command
  line handed to `subprocess.run` it fixes an outcome (exit zero,
  non-zero exit, missing executable, or an operator interrupt delivered
  during the call) and a filesystem effect of the external process.
* Each Python function becomes a Lean function returning a `Run`:
  the value produced (`Except` captures an uncaught Python exception),
  the list of subprocess invocations made, and the lines printed.

Under `subprocess.run(..., check=True)` an exit-zero process returns
normally, a non-zero exit raises `CalledProcessError`, a missing
executable raises `FileNotFoundError`, and a `KeyboardInterrupt` can be
delivered while the call blocks.
-/

/-- Outcome of one `subprocess.run([...], check=True)` invocation. -/
inductive ProcOutcome : Type
  | exitZero
  | exitNonZero
  | notFound
  | interrupted
deriving DecidableEq, Repr

/-- The Python exceptions that can escape a `subprocess.run` call site. -/
inductive PyExc : Type
  | calledProcessError
  | fileNotFoundError
  | keyboardInterrupt
deriving DecidableEq, Repr

/-- A command line handed to `subprocess.run`. -/
abbrev Cmd := List String

/-- The filesystem state the script inspects. -/
structure FS where
  resultsExists : Bool
  resultsFiles : List String
  reportExists : Bool
deriving DecidableEq, Repr

/-- The external world: each command has a fixed outcome and a fixed
filesystem effect (the effect of the external process when it runs). -/
structure ProcEnv where
  outcome : Cmd → ProcOutcome
  effect : Cmd → FS → FS

/-- Result of running one of the script functions: the returned value
(or the uncaught exception), the subprocess invocations made, and the
lines printed. -/
structure Run (α : Type) where
  result : Except PyExc α
  trace : List Cmd
  prints : List String
deriving Repr

/-- Sequencing: if the first step raised, the rest never runs. -/
def Run.andThen {α β : Type} (r : Run α) (f : α → Run β) : Run β :=
  match r.result with
  | .error e => ⟨.error e, r.trace, r.prints⟩
  | .ok a =>
    let s := f a
    ⟨s.result, r.trace ++ s.trace, r.prints ++ s.prints⟩

/-- Discard a boolean result (Python `main` ignores the return values). -/
def Run.discard (r : Run Bool) : Run Unit :=
  ⟨r.result.map fun _ => (), r.trace, r.prints⟩

/-- Replay the filesystem effects of a trace of subprocess invocations.
The script itself never writes the filesystem; only external processes
do. -/
def applyTrace (env : ProcEnv) (fs : FS) (t : List Cmd) : FS :=
  t.foldl (fun f c => env.effect c f) fs

/-- `list(results_dir.glob("*.json"))`: the files of `allure-results`
matching the artifact pattern, i.e. whose name ends in `.json`.  (The
suffix test is done on character lists so it evaluates by structural
recursion.) -/
def jsonArtifacts (fs : FS) : List String :=
  fs.resultsFiles.filter (fun f => (".json").toList.isSuffixOf f.toList)

/-- The guard `not results_dir.exists() or not list(results_dir.glob("*.json"))`
shared by `generate_report` and `serve_report`. -/
def noResults (fs : FS) : Bool :=
  !fs.resultsExists || (jsonArtifacts fs).isEmpty

def probeCmd : Cmd := ["allure", "--version"]

def npmCmd : Cmd := ["npm", "install", "-g", "allure-commandline"]

def genCmd : Cmd := ["allure", "generate", "allure-results", "--clean", "-o", "allure-report"]

def serveCmd : Cmd := ["allure", "serve", "allure-results"]

def openCmd : Cmd := ["allure", "open", "allure-report"]

def noResultsPrints : List String :=
  ["❌ No Allure results found. Run tests first:", "   pytest tests/ -v"]

/-- `check_allure_installed`: probe `allure --version`; both
`CalledProcessError` and `FileNotFoundError` are caught and yield
`False`. -/
def check_allure_installed (env : ProcEnv) : Run Bool :=
  match env.outcome probeCmd with
  | .exitZero => ⟨.ok true, [probeCmd], []⟩
  | .exitNonZero => ⟨.ok false, [probeCmd], []⟩
  | .notFound => ⟨.ok false, [probeCmd], []⟩
  | .interrupted => ⟨.error .keyboardInterrupt, [probeCmd], []⟩

def installFailPrints : List String :=
  ["❌ Failed to install Allure via npm",
   "Please install Allure manually:",
   "1. Download from: https://github.com/allure-framework/allure2/releases",
   "2. Or install via package manager (choco, brew, etc.)"]

/-- `install_allure`: run `npm install -g allure-commandline`; both
`CalledProcessError` and `FileNotFoundError` are caught and converted to
guidance plus `False`. -/
def install_allure (env : ProcEnv) : Run Bool :=
  match env.outcome npmCmd with
  | .exitZero =>
    ⟨.ok true, [npmCmd],
     ["Installing Allure command line tool...",
      "✅ Allure installed successfully via npm"]⟩
  | .exitNonZero =>
    ⟨.ok false, [npmCmd], "Installing Allure command line tool..." :: installFailPrints⟩
  | .notFound =>
    ⟨.ok false, [npmCmd], "Installing Allure command line tool..." :: installFailPrints⟩
  | .interrupted =>
    ⟨.error .keyboardInterrupt, [npmCmd], ["Installing Allure command line tool..."]⟩

/-- `generate_report`: precondition guard, then
`allure generate allure-results --clean -o allure-report` with only
`CalledProcessError` caught. -/
def generate_report (env : ProcEnv) (fs : FS) : Run Bool :=
  if noResults fs then
    ⟨.ok false, [], noResultsPrints⟩
  else
    match env.outcome genCmd with
    | .exitZero =>
      ⟨.ok true, [genCmd],
       ["📊 Generating Allure report...",
        "✅ Allure report generated in \x27allure-report/\x27 directory"]⟩
    | .exitNonZero =>
      ⟨.ok false, [genCmd],
       ["📊 Generating Allure report...",
        "❌ Failed to generate report: CalledProcessError"]⟩
    | .notFound =>
      ⟨.error .fileNotFoundError, [genCmd], ["📊 Generating Allure report..."]⟩
    | .interrupted =>
      ⟨.error .keyboardInterrupt, [genCmd], ["📊 Generating Allure report..."]⟩

def serveBannerPrints : List String :=
  ["🌐 Starting Allure report server...",
   "📱 Report will be available at: http://localhost:8080",
   "⏹️  Press Ctrl+C to stop the server"]

/-- `serve_report`: same precondition guard, then the blocking
`allure serve allure-results`; `KeyboardInterrupt` falls through to
`return True`, `CalledProcessError` yields `False`, anything else is
uncaught. -/
def serve_report (env : ProcEnv) (fs : FS) : Run Bool :=
  if noResults fs then
    ⟨.ok false, [], noResultsPrints⟩
  else
    match env.outcome serveCmd with
    | .exitZero =>
      ⟨.ok true, [serveCmd], serveBannerPrints⟩
    | .interrupted =>
      ⟨.ok true, [serveCmd], serveBannerPrints ++ ["\n🛑 Server stopped"]⟩
    | .exitNonZero =>
      ⟨.ok false, [serveCmd],
       serveBannerPrints ++ ["❌ Failed to serve report: CalledProcessError"]⟩
    | .notFound =>
      ⟨.error .fileNotFoundError, [serveCmd], serveBannerPrints⟩

def noReportPrints : List String :=
  ["❌ No report found. Generate report first:",
   "   python generate_allure_report.py generate"]

/-- `open_report`: guard on the output directory, then
`allure open allure-report` with only `CalledProcessError` caught. -/
def open_report (env : ProcEnv) (fs : FS) : Run Bool :=
  if !fs.reportExists then
    ⟨.ok false, [], noReportPrints⟩
  else
    match env.outcome openCmd with
    | .exitZero =>
      ⟨.ok true, [openCmd], ["🌐 Opening Allure report in browser..."]⟩
    | .exitNonZero =>
      ⟨.ok false, [openCmd],
       ["🌐 Opening Allure report in browser...",
        "❌ Failed to open report: CalledProcessError"]⟩
    | .notFound =>
      ⟨.error .fileNotFoundError, [openCmd], ["🌐 Opening Allure report in browser..."]⟩
    | .interrupted =>
      ⟨.error .keyboardInterrupt, [openCmd], ["🌐 Opening Allure report in browser..."]⟩

def usagePrints : List String :=
  ["Allure Report Generator",
   "==============================",
   "Usage:",
   "  python generate_allure_report.py serve    # Serve report locally",
   "  python generate_allure_report.py generate # Generate static report",
   "  python generate_allure_report.py open     # Open generated report",
   "  python generate_allure_report.py install  # Install Allure CLI"]

def notInstalledHint : String :=
  "❌ Allure not installed. Run \x27python generate_allure_report.py install\x27 first"

/-- The `elif` chain of `main` on the lowercased command token. -/
def dispatch (command : String) (env : ProcEnv) (fs : FS) : Run Unit :=
  if command = "install" then
    Run.andThen (check_allure_installed env) (fun installed =>
      if installed then ⟨.ok (), [], ["✅ Allure is already installed"]⟩
      else Run.discard (install_allure env))
  else if command = "serve" then
    Run.andThen (check_allure_installed env) (fun installed =>
      if installed then Run.discard (serve_report env fs)
      else ⟨.ok (), [], [notInstalledHint]⟩)
  else if command = "generate" then
    Run.andThen (check_allure_installed env) (fun installed =>
      if installed then Run.discard (generate_report env fs)
      else ⟨.ok (), [], [notInstalledHint]⟩)
  else if command = "open" then
    Run.andThen (check_allure_installed env) (fun installed =>
      if installed then Run.discard (open_report env fs)
      else ⟨.ok (), [], [notInstalledHint]⟩)
  else
    ⟨.ok (), [],
     ["❌ Unknown command: " ++ command,
      "Available commands: serve, generate, open, install"]⟩

/-- Python `str.lower()` as applied to the command token (character-wise
lower-casing, done structurally so it evaluates by reduction). -/
def lowerStr (s : String) : String := ⟨s.data.map Char.toLower⟩

namespace Script

/-- `main`: `argv` is `sys.argv` (program name first).  With fewer than
two entries it prints usage; otherwise it dispatches on
`sys.argv[1].lower()` and discards every boolean result.  (Namespaced
only because a bare `main` has a reserved type in Lean.) -/
def main (argv : List String) (env : ProcEnv) (fs : FS) : Run Unit :=
  match argv with
  | [] => ⟨.ok (), [], usagePrints⟩
  | [_] => ⟨.ok (), [], usagePrints⟩
  | _ :: c :: _ => dispatch (lowerStr c) env fs

end Script

/-- Exit status of `python generate_allure_report.py ...`: the
`if __name__ == "__main__": main()` tail exits 0 unless an exception
escapes `main`. -/
def scriptExit (argv : List String) (env : ProcEnv) (fs : FS) : Nat :=
  match (Script.main argv env fs).result with
  | .ok _ => 0
  | .error _ => 1

/-- A world where every external process succeeds and touches nothing. -/
def envZero : ProcEnv := ⟨fun _ => .exitZero, fun _ f => f⟩

/-- A world where the `allure` probe is missing but `npm` works. -/
def envNoAllure : ProcEnv :=
  ⟨fun c => if c = probeCmd then .notFound else .exitZero, fun _ f => f⟩

/-- A world where `allure generate` hits a missing executable. -/
def envGenMissing : ProcEnv :=
  ⟨fun c => if c = genCmd then .notFound else .exitZero, fun _ f => f⟩

/-- An empty filesystem: no results, no report. -/
def fsEmpty : FS := ⟨false, [], false⟩

/-- A filesystem with one result artifact and a previous report. -/
def fsReady : FS := ⟨true, ["0-result.json"], true⟩

/-- A world where every external process exits non-zero. -/
def envNonZero : ProcEnv := ⟨fun _ => .exitNonZero, fun _ f => f⟩

/-- A world where the blocking serve call is interrupted by the
operator and everything else succeeds. -/
def envServeInterrupt : ProcEnv :=
  ⟨fun c => if c = serveCmd then .interrupted else .exitZero, fun _ f => f⟩

/-- A filesystem with no results but a previously rendered report. -/
def fsReportOnly : FS := ⟨false, [], true⟩

theorem noResults_of_absent_or_empty {fs : FS}
    (h : fs.resultsExists = false ∨ jsonArtifacts fs = []) :
    noResults fs = true := by
  rcases h with h | h <;> simp [noResults, h]

theorem noResults_false_of_present {fs : FS}
    (h1 : fs.resultsExists = true) (h2 : jsonArtifacts fs ≠ []) :
    noResults fs = false := by
  unfold noResults
  rw [h1]
  cases hj : jsonArtifacts fs with
  | nil => exact absurd hj h2
  | cons a l => rfl

/-- C1: if the results directory is absent or contains no `*.json`
artifact, `generate_report` and `serve_report` each report the
precondition failure and return `False` with zero subprocess
invocations. -/
theorem render_serve_precondition_failure (env : ProcEnv) (fs : FS)
    (h : fs.resultsExists = false ∨ jsonArtifacts fs = []) :
    (generate_report env fs).result = .ok false ∧
    (generate_report env fs).trace = [] ∧
    (generate_report env fs).prints = noResultsPrints ∧
    (serve_report env fs).result = .ok false ∧
    (serve_report env fs).trace = [] ∧
    (serve_report env fs).prints = noResultsPrints := by
  have hb := noResults_of_absent_or_empty h
  simp [generate_report, serve_report, hb]

theorem render_serve_precondition_failure_witness :
    (generate_report envZero fsEmpty).result = .ok false ∧
    (generate_report envZero fsEmpty).trace = [] ∧
    (generate_report envZero fsEmpty).prints = noResultsPrints ∧
    (serve_report envZero fsEmpty).result = .ok false ∧
    (serve_report envZero fsEmpty).trace = [] ∧
    (serve_report envZero fsEmpty).prints = noResultsPrints :=
  render_serve_precondition_failure envZero fsEmpty (Or.inl rfl)

/-- C3: when the results directory exists and holds a `*.json`
artifact, `generate_report` invokes the tool exactly once, the command
carrying `--clean` and the output path `allure-report`, and returns
`True` iff the process exits zero. -/
theorem render_invokes_tool_once (env : ProcEnv) (fs : FS)
    (h1 : fs.resultsExists = true) (h2 : jsonArtifacts fs ≠ [])
    (h3 : env.outcome genCmd = .exitZero ∨ env.outcome genCmd = .exitNonZero) :
    (generate_report env fs).trace = [genCmd] ∧
    "--clean" ∈ genCmd ∧ "allure-report" ∈ genCmd ∧
    ((generate_report env fs).result = .ok true ↔ env.outcome genCmd = .exitZero) := by
  have hb := noResults_false_of_present h1 h2
  rcases h3 with h3 | h3 <;>
    refine ⟨?_, by decide, by decide, ?_⟩ <;>
    simp [generate_report, hb, h3]

theorem render_invokes_tool_once_witness :
    (generate_report envZero fsReady).trace = [genCmd] ∧
    "--clean" ∈ genCmd ∧ "allure-report" ∈ genCmd ∧
    ((generate_report envZero fsReady).result = .ok true ↔
      envZero.outcome genCmd = .exitZero) :=
  render_invokes_tool_once envZero fsReady rfl (by decide) (Or.inl rfl)

/-- C4: with its precondition met, `serve_report` returns `True` after
an operator interrupt (normal shutdown) and prints the failure message
and returns `False` after a non-zero exit of the serve process. -/
theorem serve_termination_modes (env : ProcEnv) (fs : FS)
    (h1 : fs.resultsExists = true) (h2 : jsonArtifacts fs ≠ []) :
    (env.outcome serveCmd = .interrupted →
       (serve_report env fs).result = .ok true ∧
       "\n🛑 Server stopped" ∈ (serve_report env fs).prints) ∧
    (env.outcome serveCmd = .exitNonZero →
       (serve_report env fs).result = .ok false ∧
       "❌ Failed to serve report: CalledProcessError"
         ∈ (serve_report env fs).prints) := by
  have hb := noResults_false_of_present h1 h2
  constructor <;> intro h3 <;> simp [serve_report, hb, h3, serveBannerPrints]

theorem serve_termination_modes_witness :
    (serve_report envServeInterrupt fsReady).result = .ok true ∧
    "\n🛑 Server stopped" ∈ (serve_report envServeInterrupt fsReady).prints :=
  (serve_termination_modes envServeInterrupt fsReady rfl (by decide)).1 (by decide)

/-- C6: `install_allure` returns `True` only when the npm invocation
exits zero; on npm missing or a non-zero exit it prints
manual-installation guidance and returns `False`, invokes npm exactly
once (no retry), and raises nothing to its caller. -/
theorem install_allure_contract (env : ProcEnv)
    (h : env.outcome npmCmd ≠ .interrupted) :
    ((install_allure env).result = .ok true ↔ env.outcome npmCmd = .exitZero) ∧
    (install_allure env).trace = [npmCmd] ∧
    (env.outcome npmCmd ≠ .exitZero →
       (install_allure env).result = .ok false ∧
       "Please install Allure manually:" ∈ (install_allure env).prints) ∧
    (∀ e : PyExc, (install_allure env).result ≠ .error e) := by
  cases h3 : env.outcome npmCmd with
  | exitZero => simp [install_allure, h3, installFailPrints]
  | exitNonZero => simp [install_allure, h3, installFailPrints]
  | notFound => simp [install_allure, h3, installFailPrints]
  | interrupted => exact absurd h3 h

theorem install_allure_contract_witness :
    ((install_allure envNonZero).result = .ok true ↔
      envNonZero.outcome npmCmd = .exitZero) ∧
    (install_allure envNonZero).trace = [npmCmd] ∧
    (envNonZero.outcome npmCmd ≠ .exitZero →
       (install_allure envNonZero).result = .ok false ∧
       "Please install Allure manually:" ∈ (install_allure envNonZero).prints) ∧
    (∀ e : PyExc, (install_allure envNonZero).result ≠ .error e) :=
  install_allure_contract envNonZero (by decide)

/-- C7: `open_report` returns `False` with a "generate first" hint and
no invocation when `allure-report` is missing; otherwise it invokes
`allure open allure-report` and returns `True` iff that process exits
zero. -/
theorem open_report_contract (env : ProcEnv) (fs : FS) :
    (fs.reportExists = false →
       (open_report env fs).result = .ok false ∧
       (open_report env fs).trace = [] ∧
       (open_report env fs).prints = noReportPrints) ∧
    (fs.reportExists = true →
       (env.outcome openCmd = .exitZero ∨ env.outcome openCmd = .exitNonZero) →
       (open_report env fs).trace = [openCmd] ∧
       ((open_report env fs).result = .ok true ↔
         env.outcome openCmd = .exitZero)) := by
  constructor
  · intro h
    simp [open_report, h]
  · intro h h2
    rcases h2 with h2 | h2 <;> simp [open_report, h, h2]

theorem open_report_contract_witness :
    ((open_report envZero fsEmpty).result = .ok false ∧
     (open_report envZero fsEmpty).trace = [] ∧
     (open_report envZero fsEmpty).prints = noReportPrints) ∧
    ((open_report envZero fsReady).trace = [openCmd] ∧
     ((open_report envZero fsReady).result = .ok true ↔
       envZero.outcome openCmd = .exitZero)) :=
  ⟨(open_report_contract envZero fsEmpty).1 rfl,
   (open_report_contract envZero fsReady).2 rfl (Or.inl rfl)⟩

/-- C9: when the render precondition fails, `generate_report` returns
`False` with an empty invocation trace, so replaying the trace leaves
the filesystem — in particular any prior `allure-report` contents —
untouched. -/
theorem render_precondition_leaves_fs_unchanged (env : ProcEnv) (fs : FS)
    (h : fs.resultsExists = false ∨ jsonArtifacts fs = []) :
    (generate_report env fs).result = .ok false ∧
    (generate_report env fs).trace = [] ∧
    applyTrace env fs (generate_report env fs).trace = fs := by
  have hb := noResults_of_absent_or_empty h
  simp [generate_report, hb, applyTrace]

theorem render_precondition_leaves_fs_unchanged_witness :
    (generate_report envZero fsReportOnly).result = .ok false ∧
    (generate_report envZero fsReportOnly).trace = [] ∧
    applyTrace envZero fsReportOnly (generate_report envZero fsReportOnly).trace
      = fsReportOnly :=
  render_precondition_leaves_fs_unchanged envZero fsReportOnly (Or.inl rfl)

/-- C2 counterexample: with the precondition met and the `allure`
executable missing, `generate_report` does not catch the
`FileNotFoundError` — it escapes to the caller, contradicting the claim
that a missing executable is converted locally into a message plus
`False`. -/
theorem render_missing_executable_escapes :
    (generate_report envGenMissing fsReady).result
      = .error .fileNotFoundError := by
  rfl

/-- C2 (amended): for render, serve and open, a non-zero exit of the
external process is caught locally and converted into a printed failure
message plus `False`; a missing executable (`FileNotFoundError`),
however, is not caught by these three operations and propagates to the
caller as an uncaught exception (only the version probe and the
installer catch it). -/
theorem process_failure_boundary (env : ProcEnv) (fs : FS)
    (h1 : fs.resultsExists = true) (h2 : jsonArtifacts fs ≠ [])
    (h3 : fs.reportExists = true) :
    (env.outcome genCmd = .exitNonZero →
       (generate_report env fs).result = .ok false ∧
       "❌ Failed to generate report: CalledProcessError"
         ∈ (generate_report env fs).prints) ∧
    (env.outcome genCmd = .notFound →
       (generate_report env fs).result = .error .fileNotFoundError) ∧
    (env.outcome serveCmd = .exitNonZero →
       (serve_report env fs).result = .ok false ∧
       "❌ Failed to serve report: CalledProcessError"
         ∈ (serve_report env fs).prints) ∧
    (env.outcome serveCmd = .notFound →
       (serve_report env fs).result = .error .fileNotFoundError) ∧
    (env.outcome openCmd = .exitNonZero →
       (open_report env fs).result = .ok false ∧
       "❌ Failed to open report: CalledProcessError"
         ∈ (open_report env fs).prints) ∧
    (env.outcome openCmd = .notFound →
       (open_report env fs).result = .error .fileNotFoundError) := by
  have hb := noResults_false_of_present h1 h2
  refine ⟨?_, ?_, ?_, ?_, ?_, ?_⟩ <;> intro h <;>
    simp [generate_report, serve_report, open_report, hb, h3, h,
      serveBannerPrints]

theorem process_failure_boundary_witness :
    (generate_report envNonZero fsReady).result = .ok false ∧
    "❌ Failed to generate report: CalledProcessError"
      ∈ (generate_report envNonZero fsReady).prints :=
  (process_failure_boundary envNonZero fsReady rfl (by decide) rfl).1 rfl

/-- C5 counterexample: with the `allure` executable absent and `npm`
working, the `install` subcommand does not stop at the version probe —
it goes on to invoke npm (a second external process) and reports a
successful installation rather than a failed result. -/
theorem install_subcommand_goes_beyond_probe :
    (Script.main ["generate_allure_report.py", "install"] envNoAllure fsEmpty).trace
      = [probeCmd, npmCmd] ∧
    "✅ Allure installed successfully via npm"
      ∈ (Script.main ["generate_allure_report.py", "install"] envNoAllure fsEmpty).prints := by
  constructor
  · rfl
  · show "✅ Allure installed successfully via npm"
      ∈ ["Installing Allure command line tool...",
         "✅ Allure installed successfully via npm"]
    simp

/-- C5 (amended): with the `allure` executable absent, the serve,
generate and open subcommands print the installation hint and invoke no
process beyond the single version probe, the dispatched operation never
running; the install subcommand instead proceeds past the probe and
invokes the package manager (npm). -/
theorem tool_absent_dispatch (env : ProcEnv) (fs : FS)
    (h : env.outcome probeCmd = .notFound) :
    ((Script.main ["generate_allure_report.py", "serve"] env fs).trace = [probeCmd] ∧
     notInstalledHint
       ∈ (Script.main ["generate_allure_report.py", "serve"] env fs).prints ∧
     (Script.main ["generate_allure_report.py", "serve"] env fs).result = .ok ()) ∧
    ((Script.main ["generate_allure_report.py", "generate"] env fs).trace = [probeCmd] ∧
     notInstalledHint
       ∈ (Script.main ["generate_allure_report.py", "generate"] env fs).prints ∧
     (Script.main ["generate_allure_report.py", "generate"] env fs).result = .ok ()) ∧
    ((Script.main ["generate_allure_report.py", "open"] env fs).trace = [probeCmd] ∧
     notInstalledHint
       ∈ (Script.main ["generate_allure_report.py", "open"] env fs).prints ∧
     (Script.main ["generate_allure_report.py", "open"] env fs).result = .ok ()) ∧
    (Script.main ["generate_allure_report.py", "install"] env fs).trace
      = [probeCmd, npmCmd] := by
  have hc : check_allure_installed env = ⟨.ok false, [probeCmd], []⟩ := by
    simp [check_allure_installed, h]
  refine ⟨?_, ?_, ?_, ?_⟩
  · show (dispatch "serve" env fs).trace = [probeCmd] ∧
      notInstalledHint ∈ (dispatch "serve" env fs).prints ∧
      (dispatch "serve" env fs).result = .ok ()
    simp [dispatch, hc, Run.andThen]
  · show (dispatch "generate" env fs).trace = [probeCmd] ∧
      notInstalledHint ∈ (dispatch "generate" env fs).prints ∧
      (dispatch "generate" env fs).result = .ok ()
    simp [dispatch, hc, Run.andThen]
  · show (dispatch "open" env fs).trace = [probeCmd] ∧
      notInstalledHint ∈ (dispatch "open" env fs).prints ∧
      (dispatch "open" env fs).result = .ok ()
    simp [dispatch, hc, Run.andThen]
  · show (dispatch "install" env fs).trace = [probeCmd, npmCmd]
    cases h4 : env.outcome npmCmd <;>
      simp [dispatch, hc, Run.andThen, Run.discard, install_allure, h4]

theorem tool_absent_dispatch_witness :
    (Script.main ["generate_allure_report.py", "serve"] envNoAllure fsEmpty).trace
      = [probeCmd] ∧
    notInstalledHint
      ∈ (Script.main ["generate_allure_report.py", "serve"] envNoAllure fsEmpty).prints ∧
    (Script.main ["generate_allure_report.py", "serve"] envNoAllure fsEmpty).result
      = .ok () :=
  (tool_absent_dispatch envNoAllure fsEmpty rfl).1

/-- C8: the dispatcher lowercases its single positional command token
(so dispatch is case-insensitive); with no argument it prints the usage
text and invokes nothing; and any token outside install, serve,
generate and open prints the unknown-command message, which lists
exactly the four valid commands, and invokes nothing. -/
theorem main_dispatch_contract (env : ProcEnv) (fs : FS) :
    (∀ c1 c2 : String, lowerStr c1 = lowerStr c2 →
       Script.main ["generate_allure_report.py", c1] env fs
         = Script.main ["generate_allure_report.py", c2] env fs) ∧
    ((Script.main ["generate_allure_report.py"] env fs).trace = [] ∧
     (Script.main ["generate_allure_report.py"] env fs).prints = usagePrints) ∧
    (∀ c : String,
       lowerStr c ≠ "install" → lowerStr c ≠ "serve" →
       lowerStr c ≠ "generate" → lowerStr c ≠ "open" →
       (Script.main ["generate_allure_report.py", c] env fs).trace = [] ∧
       (Script.main ["generate_allure_report.py", c] env fs).prints =
         ["❌ Unknown command: " ++ lowerStr c,
          "Available commands: serve, generate, open, install"]) := by
  refine ⟨?_, ⟨rfl, rfl⟩, ?_⟩
  · intro c1 c2 h
    show dispatch (lowerStr c1) env fs = dispatch (lowerStr c2) env fs
    rw [h]
  · intro c h1 h2 h3 h4
    constructor
    · show (dispatch (lowerStr c) env fs).trace = []
      simp [dispatch, h1, h2, h3, h4]
    · show (dispatch (lowerStr c) env fs).prints = _
      simp [dispatch, h1, h2, h3, h4]

theorem main_dispatch_contract_witness :
    Script.main ["generate_allure_report.py", "SERVE"] envZero fsEmpty
      = Script.main ["generate_allure_report.py", "serve"] envZero fsEmpty ∧
    (Script.main ["generate_allure_report.py", "foo"] envZero fsEmpty).trace = [] ∧
    (Script.main ["generate_allure_report.py", "foo"] envZero fsEmpty).prints =
      ["❌ Unknown command: " ++ lowerStr "foo",
       "Available commands: serve, generate, open, install"] :=
  ⟨(main_dispatch_contract envZero fsEmpty).1 "SERVE" "serve" (by decide),
   (main_dispatch_contract envZero fsEmpty).2.2 "foo"
     (by decide) (by decide) (by decide) (by decide)⟩

/-- C10: `main` discards the boolean returned by the dispatched
operation and returns `None` (unit); whenever it completes without an
uncaught exception, the script exit status is 0 regardless of whether
the operation succeeded or failed. -/
theorem main_exit_status_zero (argv : List String) (env : ProcEnv) (fs : FS)
    (u : Unit) (h : (Script.main argv env fs).result = .ok u) :
    u = () ∧ scriptExit argv env fs = 0 := by
  refine ⟨rfl, ?_⟩
  simp [scriptExit, h]

theorem main_exit_status_zero_witness :
    (Script.main ["generate_allure_report.py", "generate"] envZero fsEmpty).result
      = .ok () ∧
    scriptExit ["generate_allure_report.py", "generate"] envZero fsEmpty = 0 :=
  ⟨rfl,
   (main_exit_status_zero ["generate_allure_report.py", "generate"] envZero fsEmpty
      () rfl).2⟩
